import Mathlib

/-!
Shallow embedding of the Word Heist backend (`src/app.py`).

The embedding models the core operations as pure state-passing functions:
puzzle generation (`generate_daily_puzzle`, including the CPython
`random.seed` / `random.choice` pipeline over the MT19937 generator),
word validation (`validate_word`), hint dispensing (`use_hint`),
score submission with streak reconciliation (`submit_score`),
the leaderboard query (`get_leaderboard`) and the puzzles-solved count
of the user-stats endpoint (`puzzles_solved`).

Database rows become Lean structures; the relational store interactions of
one request become explicit inputs and outputs (a request reads at most one
row per table here).  Python integers are `Int` (or `Nat` where the source
value is a count), all-ASCII strings are `String`, JSON objects holding the
per-length word lists are association lists `List (String × List String)`
in key order, and `datetime.date` values are their `toordinal` day numbers.
-/

/-! CPython `random` module: the MT19937 generator, its seeding procedure and
the `_randbelow` / `choice` helpers used by `generate_daily_puzzle`.
All 32-bit arithmetic is `Nat` arithmetic reduced `% 2 ^ 32`. -/

def mask32 (x : Nat) : Nat := x % 4294967296

/-- State of the Mersenne Twister: the 624-word vector and the read index. -/
structure MTState where
  mt : Array Nat
  mti : Nat
deriving DecidableEq

/-- Embeds `init_genrand` of MT19937: fills the state vector from a 32-bit seed. -/
def init_genrand (s : Nat) : Array Nat :=
  (List.range 623).foldl
    (fun a i =>
      let prev := a.getD i 0
      a.push (mask32 (1812433253 * (prev ^^^ (prev >>> 30)) + (i + 1))))
    #[mask32 s]

/-- Embeds CPython's conversion of a nonnegative integer seed into the
little-endian list of 32-bit key words passed to `init_by_array`
(the zero seed yields the single key word 0). -/
def natToKey (n : Nat) : List Nat :=
  if n < 4294967296 then [n]
  else (n % 4294967296) :: natToKey (n / 4294967296)
termination_by n
decreasing_by
  exact Nat.div_lt_self (by omega) (by norm_num)

/-- Embeds `init_by_array` of MT19937 (key mixing over `init_genrand 19650218`). -/
def init_by_array (key : List Nat) : Array Nat :=
  let keyLen := key.length
  let mt0 := init_genrand 19650218
  let step1 := fun (st : Array Nat × Nat × Nat) (_ : Nat) =>
    let mt := st.1
    let i := st.2.1
    let j := st.2.2
    let prev := mt.getD (i - 1) 0
    let v := mask32 (mask32 (mt.getD i 0 ^^^ mask32 ((prev ^^^ (prev >>> 30)) * 1664525)) + key.getD j 0 + j)
    let mt := mt.set! i v
    let i := i + 1
    let j := j + 1
    let mt := if i ≥ 624 then mt.set! 0 (mt.getD 623 0) else mt
    let i := if i ≥ 624 then 1 else i
    let j := if j ≥ keyLen then 0 else j
    (mt, i, j)
  let st1 := (List.range (max 624 keyLen)).foldl step1 (mt0, 1, 0)
  let step2 := fun (st : Array Nat × Nat) (_ : Nat) =>
    let mt := st.1
    let i := st.2
    let prev := mt.getD (i - 1) 0
    let v := mask32 (mask32 (mt.getD i 0 ^^^ mask32 ((prev ^^^ (prev >>> 30)) * 1566083941)) + 4294967296 - i)
    let mt := mt.set! i v
    let i := i + 1
    let mt := if i ≥ 624 then mt.set! 0 (mt.getD 623 0) else mt
    let i := if i ≥ 624 then 1 else i
    (mt, i)
  let st2 := (List.range 623).foldl step2 (st1.1, st1.2.1)
  st2.1.set! 0 2147483648

/-- Embeds `random.seed(n)` for a nonnegative integer `n`: the global MT state
is replaced by the `init_by_array` state, with the read index at 624 so the
first extraction twists. -/
def random_seed (n : Nat) : MTState :=
  { mt := init_by_array (natToKey n), mti := 624 }

/-- Embeds the MT19937 twist (generating the next 624 state words in place). -/
def twist (mt0 : Array Nat) : Array Nat :=
  (List.range 624).foldl
    (fun a kk =>
      let y := (a.getD kk 0 &&& 2147483648) ||| (a.getD ((kk + 1) % 624) 0 &&& 2147483647)
      let v := a.getD ((kk + 397) % 624) 0 ^^^ (y >>> 1) ^^^ (if y % 2 = 1 then 2567483615 else 0)
      a.set! kk v)
    mt0

/-- Embeds `genrand_uint32`: twist when the index is exhausted, then read and
temper one word. -/
def genrand_uint32 (s : MTState) : Nat × MTState :=
  let s := if s.mti ≥ 624 then { mt := twist s.mt, mti := 0 } else s
  let y := s.mt.getD s.mti 0
  let y := y ^^^ (y >>> 11)
  let y := y ^^^ ((y <<< 7) &&& 2636928640)
  let y := y ^^^ ((y <<< 15) &&& 4022730752)
  let y := y ^^^ (y >>> 18)
  (y, { mt := s.mt, mti := s.mti + 1 })

/-- Embeds `getrandbits(k)` for `0 < k ≤ 32`: the top `k` bits of one word. -/
def getrandbits (s : MTState) (k : Nat) : Nat × MTState :=
  let g := genrand_uint32 s
  (g.1 >>> (32 - k), g.2)

/-- Embeds `int.bit_length`. -/
def bit_length (n : Nat) : Nat := if n = 0 then 0 else Nat.log2 n + 1

/-- Embeds `random._randbelow_with_getrandbits(n)` with `k = n.bit_length()`:
rejection sampling of `getrandbits k` until the draw is below `n`.  The source
loop is unbounded; the embedding carries fuel and returns the last draw
reduced `% n` if the fuel runs out (for the actual generator the loop always
terminates quickly, and every branch returns a value below `n`). -/
def randbelowAux (fuel : Nat) (s : MTState) (n k : Nat) : Nat × MTState :=
  let g := getrandbits s k
  if g.1 < n then g
  else
    match fuel with
    | 0 => (g.1 % n, g.2)
    | f + 1 => randbelowAux f g.2 n k

/-! Puzzle generation (`PUZZLE_TEMPLATES`, `generate_daily_puzzle`). -/

structure PuzzleTemplate where
  letters : List String
  mystery : String
  valid_words : List (String × List String)
  theme : String
deriving DecidableEq

def PUZZLE_TEMPLATES : List PuzzleTemplate :=
  [{ letters := ["C", "R", "I", "M", "E", "S"]
     mystery := "CRIMES"
     theme := "Mystery"
     valid_words :=
       [("3", ["ICE", "SIR", "RIM", "IRE", "SEC"]),
        ("4", ["RICE", "MICE", "CRIS", "RIME", "SEMI", "ICES", "SIRE"]),
        ("5", ["CRIME", "CRIES", "RICES", "MISER", "CIRES"]),
        ("6", ["CRIMES"])] },
   { letters := ["T", "H", "I", "E", "F", "S"]
     mystery := "THIEFS"
     theme := "Heist"
     valid_words :=
       [("3", ["THE", "HIT", "FIT", "SIT", "TIE", "HIS", "ITS"]),
        ("4", ["THIS", "HITS", "FIST", "TIES", "SITE", "HEFT"]),
        ("5", ["THIEF", "SHIFT", "HEFTS", "HEIST"]),
        ("6", ["THIEFS"])] },
   { letters := ["S", "T", "O", "L", "E", "N"]
     mystery := "STOLEN"
     theme := "Theft"
     valid_words :=
       [("3", ["SET", "LET", "NET", "TEN", "ONE", "NOT", "SON", "TON", "LOT"]),
        ("4", ["NEST", "SENT", "LETS", "NETS", "TENS", "TONE", "LOST", "LOTS", "SLOT"]),
        ("5", ["STONE", "NOTES", "STOLE", "TONES"]),
        ("6", ["STOLEN"])] }]

/-- Fallback for out-of-range list indexing; unreachable, because the index
produced by `randbelowAux` is always below the list length. -/
def fallbackTemplate : PuzzleTemplate :=
  { letters := [], mystery := "", valid_words := [], theme := "" }

/-- Embeds `random.choice(l)`: `l[_randbelow(len(l))]`. -/
def choice (s : MTState) (l : List PuzzleTemplate) : PuzzleTemplate × MTState :=
  let r := randbelowAux 1000000 s l.length (bit_length l.length)
  (l.getD r.1 fallbackTemplate, r.2)

structure PuzzleData where
  letters : List String
  mystery_word : String
  valid_words : List (String × List String)
  theme : String
  case_number : Nat
  case_title : String
deriving DecidableEq

/-- Embeds `generate_daily_puzzle(date)`, with `ordinal = date.toordinal()`.
The incoming global generator state `g` is the hidden process state at call
time; the source's `random.seed(date.toordinal())` replaces it before
`random.choice` runs, which is why `g` does not occur in the result. -/
def generate_daily_puzzle (g : MTState) (ordinal : Nat) : PuzzleData × MTState :=
  let s := random_seed ordinal
  let tpl := choice s PUZZLE_TEMPLATES
  ({ letters := tpl.1.letters
     mystery_word := tpl.1.mystery
     valid_words := tpl.1.valid_words
     theme := tpl.1.theme
     case_number := ordinal % 1000 + 1
     case_title := "The " ++ tpl.1.theme ++ " Mystery" },
   tpl.2)

/-! Data model: the rows read and written by the request handlers. -/

/-- Embeds `dict.get(key, [])` on the decoded `valid_words` JSON object. -/
def lookupD (m : List (String × List String)) (k : String) : List String :=
  match m.find? (fun p => p.1 == k) with
  | some p => p.2
  | none => []

/-- Puzzle row fields used by `validate_word` and `use_hint`
(`valid_words` already decoded from its JSON text). -/
structure Puzzle where
  mystery_word : String
  valid_words : List (String × List String)
deriving DecidableEq

/-- UserProgress row; the defaults are the column defaults of the model. -/
structure UserProgress where
  found_words : List String := []
  current_score : Int := 0
  hints_used : Int := 0
  completed : Bool := false
deriving DecidableEq

/-- User row fields used by the core operations; the defaults are the column
defaults of the model.  `last_played` is the date's ordinal day number. -/
structure User where
  premium : Bool := false
  hints_remaining : Int := 3
  last_played : Option Int := none
  streak : Int := 0
  total_score : Int := 0
deriving DecidableEq

/-- Embeds Python `str.upper()` (character-wise; the game's words are ASCII). -/
def upper (s : String) : String := { data := s.data.map Char.toUpper }

/-! Word validation (`validate_word`). -/

/-- Classified outcome of `validate_word`: the 400 missing-fields response,
the 404 unknown-puzzle response, the not-a-valid-word response, the
already-found response, and the accepting response with its payload fields
(`points` is the `len(word) * 10` value of the response; the mystery bonus
appears in `current_score`, not in `points`, exactly as in the source). -/
inductive ValidateResult where
  | missingFields
  | puzzleNotFound
  | invalid
  | duplicate
  | accepted (points : Int) (is_mystery : Bool) (current_score : Int)
      (found_words : List String) (completed : Bool)
deriving DecidableEq

/-- Embeds the `validate_word` handler.  Inputs are the raw word, the puzzle
row found for the submitted id (`none` when absent), the progress row found
for the (user, puzzle) pair (`none` when absent, in which case a fresh
default row is created), and the user row.  Output: the response plus the
committed progress and user rows (unchanged on the non-accepting paths,
where the source returns before `db.session.commit()`). -/
def validate_word (puzzleOpt : Option Puzzle) (progressOpt : Option UserProgress)
    (user : User) (rawWord : String) : ValidateResult × Option UserProgress × User :=
  let word := upper rawWord
  if word = "" then (ValidateResult.missingFields, progressOpt, user)
  else
    match puzzleOpt with
    | none => (ValidateResult.puzzleNotFound, progressOpt, user)
    | some puzzle =>
      let word_length := toString word.length
      if word ∈ lookupD puzzle.valid_words word_length then
        let progress := progressOpt.getD {}
        if word ∈ progress.found_words then (ValidateResult.duplicate, progressOpt, user)
        else
          let points : Int := (word.length : Int) * 10
          let bonus : Int := if word == puzzle.mystery_word then 100 else 0
          let progress' : UserProgress :=
            { progress with
              found_words := progress.found_words ++ [word]
              current_score := progress.current_score + points + bonus
              completed := if word == puzzle.mystery_word then true else progress.completed }
          let user' : User := { user with total_score := user.total_score + points + bonus }
          (ValidateResult.accepted points (word == puzzle.mystery_word)
             progress'.current_score progress'.found_words progress'.completed,
           some progress', user')
      else (ValidateResult.invalid, progressOpt, user)

/-! Hint dispensing (`use_hint`). -/

/-- Classified outcome of `use_hint`: the 400 no-hints response, the uncaught
`AttributeError` raised when the puzzle row is absent (the source reads
`puzzle.valid_words` without a `None` check, so the request ends in a generic
server fault rather than a classified response), the 400 no-words response,
and the hint response (`hints_remaining` is `none` when the source answers
the string `'unlimited'` for premium users). -/
inductive HintResult where
  | hintsExhausted
  | fault
  | noWordsRemaining
  | hint (word : String) (hints_remaining : Option Int)
deriving DecidableEq

/-- One outer-loop iteration of the hint search.  `hint_word` is the Python
variable (`none` for `None`); the entry test models `if hint_word: break` by
skipping once `hint_word` is truthy (a nonempty string), and the inner loop
`for word in ...: if word not in found_words: hint_word = word; break`
is the `find?` of the first word not yet found. -/
def hintStep (vw : List (String × List String)) (found : List String)
    (hint_word : Option String) (length : String) : Option String :=
  if hint_word.getD "" ≠ "" then hint_word
  else
    match (lookupD vw length).find? (fun w => !found.contains w) with
    | some w => some w
    | none => hint_word

/-- The hint search of `use_hint`: the buckets `'3'`, `'4'`, `'5'`, `'6'`
scanned in order. -/
def use_hint_scan (vw : List (String × List String)) (found : List String) : Option String :=
  (["3", "4", "5", "6"] : List String).foldl (hintStep vw found) none

/-- Modelled from the spec wording of the hint selection rule, for comparison
with the source scan: concatenate the buckets in ascending length order and
return the first word not already present in the found set. -/
def hintScanSpec (vw : List (String × List String)) (found : List String) : Option String :=
  (lookupD vw "3" ++ (lookupD vw "4" ++ (lookupD vw "5" ++ lookupD vw "6"))).find?
    (fun w => !found.contains w)

/-- Embeds the `use_hint` handler.  Inputs are the user row, the puzzle row
found for the submitted id (`none` when absent) and the progress row for the
pair.  Output: the response plus the committed user and progress rows
(unchanged on every non-success path, where the source returns — or raises —
before `db.session.commit()`). -/
def use_hint (user : User) (puzzleOpt : Option Puzzle) (progressOpt : Option UserProgress) :
    HintResult × User × Option UserProgress :=
  if user.hints_remaining ≤ 0 ∧ user.premium = false then
    (HintResult.hintsExhausted, user, progressOpt)
  else
    match puzzleOpt with
    | none => (HintResult.fault, user, progressOpt)
    | some puzzle =>
      let progress := progressOpt.getD {}
      let hint_word := use_hint_scan puzzle.valid_words progress.found_words
      match hint_word with
      | none => (HintResult.noWordsRemaining, user, progressOpt)
      | some w =>
        if w = "" then (HintResult.noWordsRemaining, user, progressOpt)
        else
          let user' := if user.premium then user
            else { user with hints_remaining := user.hints_remaining - 1 }
          let progress' := { progress with hints_used := progress.hints_used + 1 }
          (HintResult.hint w (if user.premium then none else some user'.hints_remaining),
           user', some progress')

/-! Score submission (`submit_score`). -/

/-- Score row fields written by `submit_score` and read by the stats count. -/
structure ScoreRow where
  score : Int
  time_taken : Int
  words_found : List String
  completed : Bool := false
deriving DecidableEq

/-- Embeds the `submit_score` handler.  Inputs are the existing Score row for
the (user, puzzle) pair (`none` when absent), the user row, today's date as
an ordinal day number, and the submitted payload.  Output: the success flag
of the response (always `true`), the stored Score row, and the user row. -/
def submit_score (existing : Option ScoreRow) (user : User) (today : Int)
    (score : Int) (time_taken : Int) (words_found : List String) :
    Bool × Option ScoreRow × User :=
  match existing with
  | some ex =>
    if score > ex.score then
      (true, some { ex with score := score, time_taken := time_taken, words_found := words_found }, user)
    else (true, some ex, user)
  | none =>
    let row : ScoreRow :=
      { score := score, time_taken := time_taken, words_found := words_found, completed := true }
    let user :=
      match user.last_played with
      | some lp =>
        let days_diff := today - lp
        if days_diff = 1 then { user with streak := user.streak + 1 }
        else if days_diff > 1 then { user with streak := 1 }
        else user
      | none => { user with streak := 1 }
    (true, some row, { user with last_played := some today })

/-! Leaderboard (`get_leaderboard`). -/

/-- One row of the user-score join the leaderboard query ranges over. -/
structure ScoreEntry where
  username : String
  puzzle_id : Nat
  score : Int
  time_taken : Int
  created_at : Int
deriving DecidableEq

structure LBRow where
  rank : Nat
  username : String
  score : Int
  time : Int
deriving DecidableEq

/-- The `ORDER BY Score.score DESC` relation. -/
def scoreDescOrder (a b : ScoreEntry) : Prop := b.score ≤ a.score

instance : DecidableRel scoreDescOrder :=
  fun a b => inferInstanceAs (Decidable (b.score ≤ a.score))

instance : IsTotal ScoreEntry scoreDescOrder := ⟨fun a b => le_total b.score a.score⟩

instance : IsTrans ScoreEntry scoreDescOrder := ⟨fun _ _ _ hab hbc => le_trans hbc hab⟩

/-- The response rows built by `enumerate(leaderboard)` with `rank = idx + 1`. -/
def rank_entries (l : List ScoreEntry) : List LBRow :=
  l.enum.map (fun p =>
    { rank := p.1 + 1, username := p.2.username, score := p.2.score, time := p.2.time_taken })

/-- The period filter of `get_leaderboard`: `'daily'` with a present
`puzzle_id` filters to that puzzle (with `puzzle_id` absent — falsy in the
source — no filter is applied); `'weekly'` filters to `created_at` within the
trailing seven days of `now`; any other period is unfiltered. -/
def leaderboard_query (period : String) (puzzle_id : Option Nat) (now : Int)
    (scores : List ScoreEntry) : List ScoreEntry :=
  if period = "daily" then
    match puzzle_id with
    | some pid => scores.filter (fun s => s.puzzle_id == pid)
    | none => scores
  else if period = "weekly" then scores.filter (fun s => decide (now - 7 ≤ s.created_at))
  else scores

/-- Embeds the `get_leaderboard` handler over the joined score rows `scores`:
filter by period, sort by score descending, keep the first 100 rows, and
attach 1-based ranks. -/
def get_leaderboard (period : String) (puzzle_id : Option Nat) (now : Int)
    (scores : List ScoreEntry) : List LBRow :=
  rank_entries ((List.insertionSort scoreDescOrder
    (leaderboard_query period puzzle_id now scores)).take 100)

/-! User stats (`get_user_stats`). -/

/-- The `puzzles_solved` figure of `get_user_stats`: the count of the user's
Score rows whose `completed` flag is set. -/
def puzzles_solved (rows : List ScoreRow) : Nat :=
  (rows.filter (fun r => r.completed)).length

/-! Concrete fixtures used by examples and witnesses. -/

/-- The puzzle row produced from the first template (the CRIMES puzzle). -/
def crimesPuzzle : Puzzle :=
  { mystery_word := "CRIMES"
    valid_words :=
      [("3", ["ICE", "SIR", "RIM", "IRE", "SEC"]),
       ("4", ["RICE", "MICE", "CRIS", "RIME", "SEMI", "ICES", "SIRE"]),
       ("5", ["CRIME", "CRIES", "RICES", "MISER", "CIRES"]),
       ("6", ["CRIMES"])] }

/-- A fresh non-premium user with the default three hints. -/
def u0 : User := {}

/-- Progress on the CRIMES puzzle with every word found except the mystery word. -/
def allButMystery : UserProgress :=
  { found_words := ["ICE", "SIR", "RIM", "IRE", "SEC", "RICE", "MICE", "CRIS", "RIME", "SEMI",
      "ICES", "SIRE", "CRIME", "CRIES", "RICES", "MISER", "CIRES"] }

/-- The user row after one first-time score submission on day `d`
(payload fields zeroed; only streak bookkeeping matters). -/
def submitDay (u : User) (d : Int) : User := (submit_score none u d 0 0 []).2.2

/-- Two joined score rows on puzzle 1, used by the leaderboard witness. -/
def lbFixture : List ScoreEntry :=
  [{ username := "a", puzzle_id := 1, score := 50, time_taken := 10, created_at := 0 },
   { username := "b", puzzle_id := 1, score := 80, time_taken := 20, created_at := 0 }]

/-! Helper lemmas. -/

theorem randbelowAux_lt (fuel : Nat) (s : MTState) (n k : Nat) (hn : 0 < n) :
    (randbelowAux fuel s n k).1 < n := by
  induction fuel generalizing s with
  | zero =>
    unfold randbelowAux
    dsimp only
    split
    · assumption
    · exact Nat.mod_lt _ hn
  | succ f ih =>
    unfold randbelowAux
    dsimp only
    split
    · assumption
    · exact ih _

theorem generate_daily_puzzle_eq (g : MTState) (o : Nat) :
    generate_daily_puzzle g o =
      ({ letters := (choice (random_seed o) PUZZLE_TEMPLATES).1.letters
         mystery_word := (choice (random_seed o) PUZZLE_TEMPLATES).1.mystery
         valid_words := (choice (random_seed o) PUZZLE_TEMPLATES).1.valid_words
         theme := (choice (random_seed o) PUZZLE_TEMPLATES).1.theme
         case_number := o % 1000 + 1
         case_title := "The " ++ (choice (random_seed o) PUZZLE_TEMPLATES).1.theme ++ " Mystery" },
       (choice (random_seed o) PUZZLE_TEMPLATES).2) := rfl

/-! Claim theorems. -/

/-- C2: puzzle generation is a pure deterministic function of the date: for
any two incoming global generator states (the footprint of any prior calls or
other process state), `generate_daily_puzzle` returns identical puzzle data
(all fields: letters, mystery word, valid-word mapping, theme, case number
and case title), and the case number is the date's ordinal mod 1000, plus 1. -/
theorem c2_generate_daily_puzzle_deterministic :
    ∀ (g1 g2 : MTState) (ordinal : Nat),
      (generate_daily_puzzle g1 ordinal).1 = (generate_daily_puzzle g2 ordinal).1 ∧
      (generate_daily_puzzle g1 ordinal).1.case_number = ordinal % 1000 + 1 :=
  fun _ _ _ => ⟨rfl, rfl⟩

/-- C9: for every date (and any incoming generator state), the generated
puzzle's mystery word is a member of its own valid-word mapping under the key
equal to the string of the mystery word's length. -/
theorem c9_mystery_word_in_own_mapping :
    ∀ (g : MTState) (ordinal : Nat),
      (generate_daily_puzzle g ordinal).1.mystery_word ∈
        lookupD (generate_daily_puzzle g ordinal).1.valid_words
          (toString (generate_daily_puzzle g ordinal).1.mystery_word.length) := by
  intro g o
  have key : ∀ t ∈ PUZZLE_TEMPLATES,
      t.mystery ∈ lookupD t.valid_words (toString t.mystery.length) := by decide
  have hlt := randbelowAux_lt 1000000 (random_seed o) PUZZLE_TEMPLATES.length
    (bit_length PUZZLE_TEMPLATES.length) (by decide)
  obtain ⟨t, hmem, ht⟩ : ∃ t, t ∈ PUZZLE_TEMPLATES ∧
      (choice (random_seed o) PUZZLE_TEMPLATES).1 = t := by
    refine ⟨PUZZLE_TEMPLATES.getD (randbelowAux 1000000 (random_seed o) PUZZLE_TEMPLATES.length
      (bit_length PUZZLE_TEMPLATES.length)).1 fallbackTemplate, ?_, rfl⟩
    rw [List.getD_eq_getElem _ _ hlt]
    exact List.getElem_mem hlt
  rw [generate_daily_puzzle_eq, ht]
  exact key t hmem

/-- C4: on a first score submission (no existing Score row), streak
reconciliation runs: the streak becomes 1 when `last_played` is unset or the
whole-day gap exceeds 1, is incremented when the gap is exactly 1 (and is
untouched otherwise, i.e. on a same-day gap), and `last_played` is set to
today unconditionally on this path; hence first submissions on days D, D+1,
D+2 yield streaks 1, 2, 3, while submissions on D then D+5 yield 1 then 1. -/
theorem c4_first_submission_streak :
    (∀ (u : User) (today s t : Int) (wf : List String),
        (submit_score none u today s t wf).2.2.last_played = some today ∧
        (submit_score none u today s t wf).2.2.streak =
          (match u.last_played with
           | none => 1
           | some lp =>
             if today - lp = 1 then u.streak + 1
             else if today - lp > 1 then 1 else u.streak)) ∧
    (∀ d : Int,
        (submitDay u0 d).streak = 1 ∧
        (submitDay (submitDay u0 d) (d + 1)).streak = 2 ∧
        (submitDay (submitDay (submitDay u0 d) (d + 1)) (d + 2)).streak = 3 ∧
        (submitDay (submitDay u0 d) (d + 5)).streak = 1) := by
  constructor
  · intro u today s t wf
    constructor
    · cases hlp : u.last_played <;> simp [submit_score, hlp] <;> split_ifs <;> rfl
    · cases hlp : u.last_played <;> simp [submit_score, hlp] <;> split_ifs <;> rfl
  · intro d
    have e1 : d + 1 - d = (1 : Int) := by omega
    have e2 : d + 2 - (d + 1) = (1 : Int) := by omega
    have e5 : d + 5 - d = (5 : Int) := by omega
    refine ⟨rfl, ?_, ?_, ?_⟩ <;>
      simp [submitDay, submit_score, u0, e1, e2, e5]

/-- C5: when a Score row already exists for the (user, puzzle) pair, the
submission overwrites score, time taken and the found-word list together
exactly when the new score is strictly greater, and otherwise changes
nothing; the call reports success either way, and the user row (streak and
`last_played` included) is never modified on this path. -/
theorem c5_existing_score_overwrite :
    ∀ (ex : ScoreRow) (u : User) (today s t : Int) (wf : List String),
      (submit_score (some ex) u today s t wf).1 = true ∧
      (submit_score (some ex) u today s t wf).2.2 = u ∧
      (submit_score (some ex) u today s t wf).2.1 =
        some (if s > ex.score then
                { ex with score := s, time_taken := t, words_found := wf }
              else ex) := by
  intro ex u today s t wf
  by_cases h : s > ex.score <;> simp [submit_score, h]

/-- C7 (code bug): the spec requires every user-facing failure of the hint
operation to be a classified result — in particular a request naming an
absent puzzle must produce a classified NotFound, as `validate_word` does for
the same condition — but `use_hint` reads `puzzle.valid_words` without a
`None` check, so for a user still holding hints a request naming an absent
puzzle ends in an uncaught `AttributeError` (a generic server fault, modelled
by `HintResult.fault`; the embedding has no NotFound-classified hint outcome
because the source has none), with no state change. -/
theorem c7_use_hint_absent_puzzle_fault :
    use_hint u0 none none = (HintResult.fault, u0, none) := by decide

/-- C10: every Score row created by a first-time submission has its
`completed` flag set to true regardless of the submitted word list, so the
`puzzles_solved` figure of the user-stats endpoint — the count of the user's
Score rows with `completed = true` — equals the user's total number of
first-time score submissions. -/
theorem c10_completed_always_true :
    (∀ (u : User) (today s t : Int) (wf : List String),
        (submit_score none u today s t wf).2.1 =
          some { score := s, time_taken := t, words_found := wf, completed := true }) ∧
    (∀ rows : List ScoreRow, (∀ r ∈ rows, r.completed = true) →
        puzzles_solved rows = rows.length) := by
  constructor
  · intro u today s t wf
    rfl
  · intro rows h
    simp [puzzles_solved, List.filter_eq_self.mpr h]

/-- Witness for C10: a first-time submission whose word list does not contain
the mystery word still counts as a solved puzzle. -/
theorem c10_witness :
    puzzles_solved [{ score := 40, time_taken := 30, words_found := ["RICE"], completed := true }] = 1 :=
  c10_completed_always_true.2 _ (by decide)

theorem validate_word_fresh_eq (p : Puzzle) (prog : Option UserProgress) (u : User) (w : String)
    (hw : upper w ≠ "")
    (hv : upper w ∈ lookupD p.valid_words (toString (upper w).length))
    (hnf : upper w ∉ (prog.getD {}).found_words) :
    validate_word (some p) prog u w =
      (ValidateResult.accepted (((upper w).length : Int) * 10) (upper w == p.mystery_word)
         ((prog.getD {}).current_score + ((upper w).length : Int) * 10 +
            (if upper w == p.mystery_word then 100 else 0))
         ((prog.getD {}).found_words ++ [upper w])
         (if upper w == p.mystery_word then true else (prog.getD {}).completed),
       some { prog.getD {} with
                found_words := (prog.getD {}).found_words ++ [upper w]
                current_score := (prog.getD {}).current_score + ((upper w).length : Int) * 10 +
                  (if upper w == p.mystery_word then 100 else 0)
                completed := if upper w == p.mystery_word then true else (prog.getD {}).completed },
       { u with total_score := u.total_score + ((upper w).length : Int) * 10 +
           (if upper w == p.mystery_word then 100 else 0) }) := by
  simp [validate_word, hw, hv, hnf]

/-- C1: word validation uppercases the candidate word and classifies it
INVALID exactly when the word's length has no key in the puzzle's valid-word
mapping or the word is absent from that length's list (`lookupD` returns `[]`
for a missing key, so both absences coincide); when present (and not yet
found), it awards `length * 10` points, and when the word also equals the
mystery word it flags MYSTERY (`is_mystery = true`), adds the flat 100-point
bonus to both the progress running score and the user's total score, and sets
`completed = true`.  On the CRIMES puzzle, "RICE" is accepted with 40 points
and "CRIMES" is flagged mystery with 60 + 100 = 160 points total and
`completed = true`. -/
theorem c1_validate_word_scoring (p : Puzzle) (prog : Option UserProgress) (u : User) (w : String)
    (hw : upper w ≠ "")
    (hnf : upper w ∉ (prog.getD {}).found_words) :
    ((validate_word (some p) prog u w).1 = ValidateResult.invalid ↔
       upper w ∉ lookupD p.valid_words (toString (upper w).length)) ∧
    (upper w ∈ lookupD p.valid_words (toString (upper w).length) →
      validate_word (some p) prog u w =
        (ValidateResult.accepted (((upper w).length : Int) * 10) (upper w == p.mystery_word)
           ((prog.getD {}).current_score + ((upper w).length : Int) * 10 +
              (if upper w == p.mystery_word then 100 else 0))
           ((prog.getD {}).found_words ++ [upper w])
           (if upper w == p.mystery_word then true else (prog.getD {}).completed),
         some { prog.getD {} with
                  found_words := (prog.getD {}).found_words ++ [upper w]
                  current_score := (prog.getD {}).current_score + ((upper w).length : Int) * 10 +
                    (if upper w == p.mystery_word then 100 else 0)
                  completed := if upper w == p.mystery_word then true else (prog.getD {}).completed },
         { u with total_score := u.total_score + ((upper w).length : Int) * 10 +
             (if upper w == p.mystery_word then 100 else 0) })) ∧
    validate_word (some crimesPuzzle) none u0 "RICE" =
      (ValidateResult.accepted 40 false 40 ["RICE"] false,
       some { found_words := ["RICE"], current_score := 40 },
       { u0 with total_score := 40 }) ∧
    validate_word (some crimesPuzzle) none u0 "CRIMES" =
      (ValidateResult.accepted 60 true 160 ["CRIMES"] true,
       some { found_words := ["CRIMES"], current_score := 160, completed := true },
       { u0 with total_score := 160 }) := by
  refine ⟨?_, ?_, by decide, by decide⟩
  · constructor
    · intro hinv
      by_contra hv
      rw [validate_word_fresh_eq p prog u w hw hv hnf] at hinv
      simp at hinv
    · intro hnv
      simp [validate_word, hw, hnv]
  · intro hv
    exact validate_word_fresh_eq p prog u w hw hv hnf

/-- Witness for C1 instantiating its hypotheses at the CRIMES puzzle with the
word "RICE" and a fresh progress row. -/
theorem c1_witness :
    validate_word (some crimesPuzzle) none u0 "RICE" =
      (ValidateResult.accepted 40 false 40 ["RICE"] false,
       some { found_words := ["RICE"], current_score := 40 },
       { u0 with total_score := 40 }) :=
  (c1_validate_word_scoring crimesPuzzle none u0 "RICE" (by decide) (by decide)).2.1 (by decide)

/-- C3: for a word valid for the puzzle and not yet found, the first
validation is accepted (VALID or MYSTERY according to the `is_mystery` flag)
and the second validation of the same word for the same (user, puzzle)
returns DUPLICATE while leaving the progress row and the user row (total
score included) exactly as the first call left them; and DUPLICATE arises
only past the validity test, so it is only ever reported for words present
in the puzzle's valid-word mapping. -/
theorem c3_duplicate_second_validation (p : Puzzle) (prog : Option UserProgress) (u : User) (w : String)
    (hw : upper w ≠ "")
    (hv : upper w ∈ lookupD p.valid_words (toString (upper w).length))
    (hnf : upper w ∉ (prog.getD {}).found_words) :
    (∃ pts mys cs fw cp,
        (validate_word (some p) prog u w).1 = ValidateResult.accepted pts mys cs fw cp) ∧
    validate_word (some p) (validate_word (some p) prog u w).2.1
        (validate_word (some p) prog u w).2.2 w =
      (ValidateResult.duplicate, (validate_word (some p) prog u w).2.1,
       (validate_word (some p) prog u w).2.2) ∧
    (∀ (prog2 : Option UserProgress) (u2 : User) (w2 : String),
        (validate_word (some p) prog2 u2 w2).1 = ValidateResult.duplicate →
        upper w2 ∈ lookupD p.valid_words (toString (upper w2).length)) := by
  refine ⟨?_, ?_, ?_⟩
  · rw [validate_word_fresh_eq p prog u w hw hv hnf]
    exact ⟨_, _, _, _, _, rfl⟩
  · rw [validate_word_fresh_eq p prog u w hw hv hnf]
    simp [validate_word, hw, hv]
  · intro prog2 u2 w2 hdup
    by_cases hw2 : upper w2 = ""
    · simp [validate_word, hw2] at hdup
    · by_cases hv2 : upper w2 ∈ lookupD p.valid_words (toString (upper w2).length)
      · exact hv2
      · simp [validate_word, hw2, hv2] at hdup

/-- Witness for C3 instantiating its hypotheses at the CRIMES puzzle with the
word "RICE" and a fresh progress row: revalidating "RICE" is a no-op
DUPLICATE. -/
theorem c3_witness :
    validate_word (some crimesPuzzle) (validate_word (some crimesPuzzle) none u0 "RICE").2.1
        (validate_word (some crimesPuzzle) none u0 "RICE").2.2 "RICE" =
      (ValidateResult.duplicate, (validate_word (some crimesPuzzle) none u0 "RICE").2.1,
       (validate_word (some crimesPuzzle) none u0 "RICE").2.2) :=
  (c3_duplicate_second_validation crimesPuzzle none u0 "RICE"
    (by decide) (by decide) (by decide)).2.1

theorem hintStep_foldl_some (vw : List (String × List String)) (found : List String)
    (ks : List String) (w : String) (hw : w ≠ "") :
    ks.foldl (hintStep vw found) (some w) = some w := by
  induction ks with
  | nil => rfl
  | cons k ks ih =>
    rw [List.foldl_cons]
    have h1 : hintStep vw found (some w) k = some w := by
      unfold hintStep
      rw [if_pos]
      simpa using hw
    rw [h1, ih]

theorem use_hint_scan_keys (vw : List (String × List String)) (found : List String) :
    ∀ (ks : List String), (∀ k ∈ ks, "" ∉ lookupD vw k) →
      ks.foldl (hintStep vw found) none =
        (ks.map (fun k => lookupD vw k)).flatten.find? (fun w => !found.contains w) := by
  intro ks
  induction ks with
  | nil => intro _; rfl
  | cons k ks ih =>
    intro h
    have hk : "" ∉ lookupD vw k := h k (by simp)
    have hks : ∀ k2 ∈ ks, "" ∉ lookupD vw k2 := fun k2 hk2 => h k2 (by simp [hk2])
    rw [List.foldl_cons, List.map_cons, List.flatten_cons, List.find?_append]
    cases hfind : (lookupD vw k).find? (fun w => !found.contains w) with
    | some w =>
      have hwmem : w ∈ lookupD vw k := List.mem_of_find?_eq_some hfind
      have hwne : w ≠ "" := fun e => hk (e ▸ hwmem)
      have h1 : hintStep vw found none k = some w := by
        unfold hintStep
        rw [hfind]
        simp
      rw [h1, hintStep_foldl_some vw found ks w hwne]
      rfl
    | none =>
      have h1 : hintStep vw found none k = none := by
        unfold hintStep
        rw [hfind]
        simp
      rw [h1, ih hks]
      rfl

theorem use_hint_scan_eq_spec (vw : List (String × List String)) (found : List String)
    (h : ∀ k ∈ (["3", "4", "5", "6"] : List String), "" ∉ lookupD vw k) :
    use_hint_scan vw found = hintScanSpec vw found := by
  have h2 := use_hint_scan_keys vw found ["3", "4", "5", "6"] h
  unfold use_hint_scan hintScanSpec
  rw [h2]
  simp

theorem mem_concat_bucket {vw : List (String × List String)} {w : String}
    (hmem : w ∈ (lookupD vw "3" ++ (lookupD vw "4" ++ (lookupD vw "5" ++ lookupD vw "6")))) :
    ∃ k ∈ (["3", "4", "5", "6"] : List String), w ∈ lookupD vw k := by
  rcases List.mem_append.mp hmem with h | h'
  · exact ⟨"3", by simp, h⟩
  · rcases List.mem_append.mp h' with h | h''
    · exact ⟨"4", by simp, h⟩
    · rcases List.mem_append.mp h'' with h | h
      · exact ⟨"5", by simp, h⟩
      · exact ⟨"6", by simp, h⟩

theorem bucket_mem_concat {vw : List (String × List String)} {w k : String}
    (hk : k ∈ (["3", "4", "5", "6"] : List String)) (hw : w ∈ lookupD vw k) :
    w ∈ (lookupD vw "3" ++ (lookupD vw "4" ++ (lookupD vw "5" ++ lookupD vw "6"))) := by
  fin_cases hk <;> simp [List.mem_append, hw]

theorem scan_some_ne_empty (vw : List (String × List String)) (found : List String)
    (hemp : ∀ k ∈ (["3", "4", "5", "6"] : List String), "" ∉ lookupD vw k)
    (w : String) (hw : hintScanSpec vw found = some w) : w ≠ "" := by
  intro e
  subst e
  rcases mem_concat_bucket (List.mem_of_find?_eq_some hw) with ⟨k, hk, hmem⟩
  exact hemp k hk hmem

theorem use_hint_eq_of_scan_some (u : User) (p : Puzzle) (prog : Option UserProgress)
    (hgate : ¬(u.hints_remaining ≤ 0 ∧ u.premium = false)) (w : String)
    (hscan : use_hint_scan p.valid_words (prog.getD {}).found_words = some w)
    (hwne : w ≠ "") :
    use_hint u (some p) prog =
      (HintResult.hint w (if u.premium then none else some (u.hints_remaining - 1)),
       (if u.premium then u else { u with hints_remaining := u.hints_remaining - 1 }),
       some { prog.getD {} with hints_used := (prog.getD {}).hints_used + 1 }) := by
  cases hp : u.premium with
  | false =>
    have hpos : ¬ u.hints_remaining ≤ 0 := fun hle => hgate ⟨hle, hp⟩
    simp [use_hint, hscan, hwne, hp, hpos]
  | true => simp [use_hint, hscan, hwne, hp]

theorem use_hint_eq_of_scan_none (u : User) (p : Puzzle) (prog : Option UserProgress)
    (hgate : ¬(u.hints_remaining ≤ 0 ∧ u.premium = false))
    (hscan : use_hint_scan p.valid_words (prog.getD {}).found_words = none) :
    use_hint u (some p) prog = (HintResult.noWordsRemaining, u, prog) := by
  simp [use_hint, if_neg hgate, hscan]

/-- C6: for a user allowed to take a hint, on a puzzle whose word lists do
not contain the empty string (true of every generated puzzle; Python's
truthiness test `if not hint_word` would misread an empty-string word), the
hint operation returns the word selected by the spec's scan — buckets '3',
'4', '5', '6' in ascending order, each bucket in stored order, first word not
in the found set (`use_hint_scan_eq_spec` equates the source loop with that
scan) — decrementing the non-premium user's hints and incrementing
`hints_used`; it fails with NoWordsRemaining exactly when every word of
every bucket is already found; and the mystery word takes part in the scan:
on the CRIMES puzzle with everything but "CRIMES" found, the hint is
"CRIMES" itself. -/
theorem c6_use_hint_selection (u : User) (p : Puzzle) (prog : Option UserProgress)
    (hgate : ¬(u.hints_remaining ≤ 0 ∧ u.premium = false))
    (hemp : ∀ k ∈ (["3", "4", "5", "6"] : List String), "" ∉ lookupD p.valid_words k) :
    (∀ w, hintScanSpec p.valid_words (prog.getD {}).found_words = some w →
        use_hint u (some p) prog =
          (HintResult.hint w (if u.premium then none else some (u.hints_remaining - 1)),
           (if u.premium then u else { u with hints_remaining := u.hints_remaining - 1 }),
           some { prog.getD {} with hints_used := (prog.getD {}).hints_used + 1 })) ∧
    ((use_hint u (some p) prog = (HintResult.noWordsRemaining, u, prog)) ↔
        (∀ k ∈ (["3", "4", "5", "6"] : List String), ∀ w ∈ lookupD p.valid_words k,
          w ∈ (prog.getD {}).found_words)) ∧
    (use_hint u0 (some crimesPuzzle) (some allButMystery)).1 = HintResult.hint "CRIMES" (some 2) := by
  have hscan := use_hint_scan_eq_spec p.valid_words (prog.getD {}).found_words hemp
  refine ⟨?_, ?_, by decide⟩
  · intro w hw
    exact use_hint_eq_of_scan_some u p prog hgate w (hscan.trans hw)
      (scan_some_ne_empty p.valid_words (prog.getD {}).found_words hemp w hw)
  · cases hval : hintScanSpec p.valid_words (prog.getD {}).found_words with
    | none =>
      rw [use_hint_eq_of_scan_none u p prog hgate (hscan.trans hval)]
      constructor
      · intro _ k hk w hwk
        have hc := List.find?_eq_none.mp hval w (bucket_mem_concat hk hwk)
        simpa using hc
      · intro _
        rfl
    | some w =>
      have hwne := scan_some_ne_empty p.valid_words (prog.getD {}).found_words hemp w hval
      rw [use_hint_eq_of_scan_some u p prog hgate w (hscan.trans hval) hwne]
      constructor
      · intro heq
        exfalso
        simp at heq
      · intro hall
        exfalso
        unfold hintScanSpec at hval
        have hfound := List.find?_some hval
        simp at hfound
        rcases mem_concat_bucket (List.mem_of_find?_eq_some hval) with ⟨k, hk, hmem⟩
        exact hfound (hall k hk w hmem)

/-- Witness for C6 instantiating its hypotheses: a fresh non-premium user
with three hints on the CRIMES puzzle with no progress receives the first
3-letter word, "ICE". -/
theorem c6_witness :
    use_hint u0 (some crimesPuzzle) none =
      (HintResult.hint "ICE" (some 2), { u0 with hints_remaining := 2 },
       some { hints_used := 1 }) :=
  (c6_use_hint_selection u0 crimesPuzzle none (by decide) (by decide)).1 "ICE" (by decide)

theorem pairwise_enumFrom_snd {α : Type} {R : α → α → Prop} :
    ∀ (l : List α) (n : Nat), l.Pairwise R → (l.enumFrom n).Pairwise (fun a b => R a.2 b.2) := by
  intro l
  induction l with
  | nil =>
    intro n _
    simp
  | cons a l ih =>
    intro n h
    rcases List.pairwise_cons.mp h with ⟨ha, hl⟩
    rw [List.enumFrom_cons]
    exact List.pairwise_cons.mpr
      ⟨fun y hy => ha y.2 (List.snd_mem_of_mem_enumFrom hy), ih (n + 1) hl⟩

theorem rank_entries_mem (l : List ScoreEntry) (row : LBRow) (h : row ∈ rank_entries l) :
    ∃ e, e ∈ l ∧ row.username = e.username ∧ row.score = e.score ∧ row.time = e.time_taken := by
  unfold rank_entries at h
  rcases List.mem_map.mp h with ⟨q, hq, hrow⟩
  have hq2 : q.2 ∈ l := List.snd_mem_of_mem_enumFrom hq
  exact ⟨q.2, hq2, by rw [← hrow], by rw [← hrow], by rw [← hrow]⟩

theorem rank_entries_pairwise (l : List ScoreEntry) (h : l.Pairwise scoreDescOrder) :
    (rank_entries l).Pairwise (fun a b => b.score ≤ a.score) := by
  unfold rank_entries
  rw [List.pairwise_map]
  exact pairwise_enumFrom_snd l 0 h

theorem rank_entries_rank (l : List ScoreEntry) (i : Nat) (h : i < (rank_entries l).length) :
    ((rank_entries l).get ⟨i, h⟩).rank = i + 1 := by
  simp [rank_entries, List.get_eq_getElem, List.getElem_map, List.getElem_enum]

theorem get_leaderboard_shape (period : String) (pid : Option Nat) (now : Int)
    (scores : List ScoreEntry) :
    (get_leaderboard period pid now scores).Pairwise (fun a b => b.score ≤ a.score) ∧
    (get_leaderboard period pid now scores).length ≤ 100 := by
  constructor
  · exact rank_entries_pairwise _
      ((List.sorted_insertionSort scoreDescOrder _).sublist (List.take_sublist 100 _))
  · simp [get_leaderboard, rank_entries, List.length_take]

/-- C8: the leaderboard query with period `'daily'` and a supplied puzzle id
(the spec requires callers to pass one with this period) draws every returned
row from a score on that puzzle; and for every period, the returned sequence
is sorted by score descending, holds at most 100 rows, and each row's rank
equals its 1-based position in the returned (already limited) sequence. -/
theorem c8_leaderboard_ranking :
    (∀ (pid : Nat) (now : Int) (scores : List ScoreEntry) (row : LBRow),
        row ∈ get_leaderboard "daily" (some pid) now scores →
        ∃ e, e ∈ scores ∧ e.puzzle_id = pid ∧ row.username = e.username ∧
          row.score = e.score ∧ row.time = e.time_taken) ∧
    (∀ (period : String) (pid : Option Nat) (now : Int) (scores : List ScoreEntry),
        (get_leaderboard period pid now scores).Pairwise (fun a b => b.score ≤ a.score)) ∧
    (∀ (period : String) (pid : Option Nat) (now : Int) (scores : List ScoreEntry),
        (get_leaderboard period pid now scores).length ≤ 100) ∧
    (∀ (period : String) (pid : Option Nat) (now : Int) (scores : List ScoreEntry)
        (i : Nat) (h : i < (get_leaderboard period pid now scores).length),
        ((get_leaderboard period pid now scores).get ⟨i, h⟩).rank = i + 1) := by
  refine ⟨?_, fun period pid now scores => (get_leaderboard_shape period pid now scores).1,
          fun period pid now scores => (get_leaderboard_shape period pid now scores).2,
          fun period pid now scores i h => rank_entries_rank _ i h⟩
  intro pid now scores row hrow
  rcases rank_entries_mem _ row hrow with ⟨e, he, h1, h2, h3⟩
  have he2 : e ∈ List.insertionSort scoreDescOrder
      (leaderboard_query "daily" (some pid) now scores) := List.mem_of_mem_take he
  have he3 : e ∈ leaderboard_query "daily" (some pid) now scores :=
    (List.perm_insertionSort scoreDescOrder _).mem_iff.mp he2
  have he4 : e ∈ scores.filter (fun s => s.puzzle_id == pid) := by
    simpa [leaderboard_query] using he3
  rcases List.mem_filter.mp he4 with ⟨he5, he6⟩
  exact ⟨e, he5, by simpa using he6, h1, h2, h3⟩

/-- Witness for C8 instantiating its hypotheses on a two-row score table for
puzzle 1: the top-ranked row is drawn from those scores, and the first
returned row carries rank 1. -/
theorem c8_witness :
    (∃ e, e ∈ lbFixture ∧ e.puzzle_id = 1 ∧
        ({ rank := 1, username := "b", score := 80, time := 20 } : LBRow).username = e.username ∧
        ({ rank := 1, username := "b", score := 80, time := 20 } : LBRow).score = e.score ∧
        ({ rank := 1, username := "b", score := 80, time := 20 } : LBRow).time = e.time_taken) ∧
    ((get_leaderboard "daily" (some 1) 0 lbFixture).get ⟨0, by decide⟩).rank = 0 + 1 :=
  ⟨c8_leaderboard_ranking.1 1 0 lbFixture _ (by decide),
   c8_leaderboard_ranking.2.2.2 "daily" (some 1) 0 lbFixture 0 (by decide)⟩
